import Mathlib

/-!
Verification of the Pinocchio escrow program: a shallow embedding of the
instruction codec (src/lib.rs), the escrow record store (src/state/mod.rs)
and the three handlers Make / Take / Refund (src/instructions/*.rs),
together with theorems settling the specification claims.

Machine integers are modelled as `Nat` with explicit bounds where overflow
matters; byte buffers are `List Nat`; fallible code returns `Except`.
-/

/-- A 32-byte ledger identity (`pinocchio::pubkey::Pubkey`), modelled as a
byte list; where a claim depends on the 32-byte length it is a hypothesis. -/
abbrev Pubkey := List Nat

/-- Little-endian byte encoding of a 64-bit integer, the meaning of the
standard `u64::to_le_bytes` used by `pack_instruction_data` and the seed
material in `make.rs`. -/
def u64ToLe (n : Nat) : List Nat :=
  [n % 256, n / 256 % 256, n / 256 ^ 2 % 256, n / 256 ^ 3 % 256,
   n / 256 ^ 4 % 256, n / 256 ^ 5 % 256, n / 256 ^ 6 % 256, n / 256 ^ 7 % 256]

/-- Little-endian decoding of a byte list, the meaning of the standard
`u64::from_le_bytes` used by `EscrowInstruction::unpack`. -/
def u64FromLe : List Nat → Nat
  | [] => 0
  | b :: rest => b + 256 * u64FromLe rest

/-- The error enum of `src/error/mod.rs`, variants in declaration order. -/
inductive EscrowError where
  | InvalidInstruction
  | NotRentExempt
  | ExpectedAmountMismatch
  | AmountOverflow
  | InvalidState
  | InvalidAuthority
  | InvalidTokenProgram
  | InvalidTokenMint
  | InvalidEscrowAccount
deriving DecidableEq, Repr

/-- The Rust `e as u32` discriminant of an `EscrowError`. -/
def EscrowError.toU32 : EscrowError → Nat
  | .InvalidInstruction => 0
  | .NotRentExempt => 1
  | .ExpectedAmountMismatch => 2
  | .AmountOverflow => 3
  | .InvalidState => 4
  | .InvalidAuthority => 5
  | .InvalidTokenProgram => 6
  | .InvalidTokenMint => 7
  | .InvalidEscrowAccount => 8

/-- The subset of `pinocchio::program_error::ProgramError` the program uses. -/
inductive ProgramError where
  | MissingRequiredSignature
  | IncorrectProgramId
  | InvalidAccountData
  | Custom (code : Nat)
deriving DecidableEq, Repr

/-- `impl From<EscrowError> for ProgramError` in `src/error/mod.rs`:
`ProgramError::Custom(e as u32)`. -/
def EscrowError.toProgramError (e : EscrowError) : ProgramError :=
  .Custom e.toU32

/-- The instruction enum of `src/lib.rs`. Note: the enum declaration there
writes `Take { amount }` and `Refund { amount }` without a seed field, but
`unpack`, `pack_instruction_data` and `process_instruction` all construct and
match `Take { amount, seed }` / `Refund { amount, seed }`; the embedding
follows the three use sites. -/
inductive EscrowInstruction where
  | Make (amount seed : Nat)
  | Take (amount seed : Nat)
  | Refund (amount seed : Nat)
deriving DecidableEq, Repr

/-- `EscrowInstruction::unpack` from `src/lib.rs`: empty input is rejected,
the first byte selects the variant (0/1/2), inputs shorter than 17 bytes are
rejected, `amount` is read from bytes 1..9 and `seed` from bytes 9..17 as
little-endian 64-bit integers. -/
def EscrowInstruction.unpack (input : List Nat) : Except ProgramError EscrowInstruction :=
  match input with
  | [] => .error (EscrowError.toProgramError .InvalidInstruction)
  | op :: rest =>
    if op = 0 then
      if (op :: rest).length < 17 then
        .error (EscrowError.toProgramError .InvalidInstruction)
      else
        .ok (.Make (u64FromLe (rest.take 8)) (u64FromLe ((rest.drop 8).take 8)))
    else if op = 1 then
      if (op :: rest).length < 17 then
        .error (EscrowError.toProgramError .InvalidInstruction)
      else
        .ok (.Take (u64FromLe (rest.take 8)) (u64FromLe ((rest.drop 8).take 8)))
    else if op = 2 then
      if (op :: rest).length < 17 then
        .error (EscrowError.toProgramError .InvalidInstruction)
      else
        .ok (.Refund (u64FromLe (rest.take 8)) (u64FromLe ((rest.drop 8).take 8)))
    else
      .error (EscrowError.toProgramError .InvalidInstruction)

/-- `pack_instruction_data` from `src/lib.rs`: the variant tag byte followed
by `amount` and `seed` as little-endian 64-bit integers. -/
def pack_instruction_data : EscrowInstruction → List Nat
  | .Make amount seed => 0 :: (u64ToLe amount ++ u64ToLe seed)
  | .Take amount seed => 1 :: (u64ToLe amount ++ u64ToLe seed)
  | .Refund amount seed => 2 :: (u64ToLe amount ++ u64ToLe seed)

/-- The escrow record of `src/state/mod.rs` (`#[repr(C)] struct Escrow`). -/
structure Escrow where
  discriminator : List Nat
  maker : Pubkey
  mint_a : Pubkey
  mint_b : Pubkey
  receive_account : Pubkey
  amount : Nat
  bump : Nat
deriving DecidableEq, Repr, Inhabited

/-- `Escrow::LEN = 8 + 32 + 32 + 32 + 32 + 8 + 1`. -/
def Escrow.LEN : Nat := 8 + 32 + 32 + 32 + 32 + 8 + 1

/-- `Escrow::DISCRIMINATOR`. -/
def Escrow.DISCRIMINATOR : List Nat := [139, 11, 230, 78, 92, 65, 103, 116]

/-- The byte image of a record under the `#[repr(C)]` field layout used by
the zero-copy pointer cast in `state/mod.rs`: discriminator at offset 0,
maker at 8, mint_a at 40, mint_b at 72, receive_account at 104, amount (u64
little-endian, the target is little-endian) at 136, bump at 144. -/
def Escrow.serialize (e : Escrow) : List Nat :=
  e.discriminator ++ (e.maker ++ (e.mint_a ++ (e.mint_b ++
    (e.receive_account ++ (u64ToLe e.amount ++ [e.bump])))))

/-- Field reads through the `&mut *(data.as_mut_ptr() as *mut Escrow)`
reinterpretation of an account data buffer, as fixed-offset reads. -/
def Escrow.deserialize (data : List Nat) : Escrow :=
  { discriminator := data.take 8
    maker := (data.drop 8).take 32
    mint_a := (data.drop 40).take 32
    mint_b := (data.drop 72).take 32
    receive_account := (data.drop 104).take 32
    amount := u64FromLe ((data.drop 136).take 8)
    bump := data.getD 144 0 }

/-- `Escrow::validate_account` from `src/state/mod.rs`: reinterpret the
account data as a record, then reject with `ProgramError::InvalidAccountData`
unless the discriminator equals `Escrow::DISCRIMINATOR`. -/
def Escrow.validate_account (data : List Nat) : Except ProgramError Escrow :=
  let escrow := Escrow.deserialize data
  if escrow.discriminator ≠ Escrow.DISCRIMINATOR then .error .InvalidAccountData
  else .ok escrow

/-- `Escrow::from_account` delegates to `Self::validate_account`. -/
def Escrow.from_account (data : List Nat) : Except ProgramError Escrow :=
  Escrow.validate_account data

/-- `Escrow::init` from `src/state/mod.rs`: the record value written into
the escrow account (discriminator set to the constant, all other fields from
the arguments). -/
def Escrow.init (maker mint_a mint_b receive_account : Pubkey)
    (amount bump : Nat) : Escrow :=
  { discriminator := Escrow.DISCRIMINATOR
    maker := maker
    mint_a := mint_a
    mint_b := mint_b
    receive_account := receive_account
    amount := amount
    bump := bump }


/-- The view of `pinocchio::account_info::AccountInfo` the handlers use:
address, signer flag, lamport balance and data buffer. -/
structure AccountInfo where
  key : Pubkey
  isSigner : Bool
  lamports : Nat
  data : List Nat
deriving DecidableEq, Repr, Inhabited

/-- Modelled from the spec (section 4.2): `Pubkey::find_program_address` of
the external ledger SDK, a deterministic collision-resistant mapping from
seed material and a program id to an address plus a disambiguation byte.
Only determinism and equality comparison matter to the handlers; the model
concatenates the seed material with the program id and fixes the bump
at 255. -/
def find_program_address (seeds : List (List Nat)) (program_id : Pubkey) :
    Pubkey × Nat :=
  (seeds.flatten ++ program_id, 255)

/-- `find_escrow_address` from `src/instructions/make.rs`: derive from the
literal label bytes of "escrow", the maker key, and the little-endian seed. -/
def find_escrow_address (maker : Pubkey) (seed : Nat) (program_id : Pubkey) :
    Pubkey × Nat :=
  find_program_address [[101, 115, 99, 114, 111, 119], maker, u64ToLe seed] program_id

/-- `find_vault_address` from `src/instructions/make.rs`: derive from the
literal label bytes of "vault" and the escrow address. -/
def find_vault_address (escrow : Pubkey) (program_id : Pubkey) : Pubkey × Nat :=
  find_program_address [[118, 97, 117, 108, 116], escrow] program_id

/-- Modelled from the spec (section 6): the fixed identity of the external
asset-custody collaborator (`spl_token::ID`); the handlers only compare it
for equality, so any fixed 32-byte constant distinct from the system id is
faithful. -/
def TOKEN_PROGRAM_ID : Pubkey := List.replicate 32 6

/-- Modelled from the spec (section 6): the fixed identity of the external
ledger collaborator (`system_program::ID`, the all-zero address). -/
def SYSTEM_PROGRAM_ID : Pubkey := List.replicate 32 0

/-- One request issued to an external collaborator (a cross-program
invocation): account creation, holding-account setup, transfer, or close. -/
inductive Effect where
  | createAccount (source newAccount : Pubkey) (lamports space : Nat) (owner : Pubkey)
  | initHolding (account mint owner : Pubkey)
  | transfer (source dest authority : Pubkey) (amount : Nat)
  | closeAccount (account dest authority : Pubkey)
deriving DecidableEq, Repr

/-- The account list of the Make handler (`MakeAccounts` in make.rs). -/
structure MakeAccounts where
  maker : AccountInfo
  mint_a : AccountInfo
  mint_b : AccountInfo
  maker_ata_a : AccountInfo
  escrow : AccountInfo
  vault : AccountInfo
  token_program : AccountInfo
  system_program : AccountInfo
deriving DecidableEq, Repr, Inhabited

/-- The committed outcome of a successful Make: the record written by
`Escrow::init`, the escrow account data it occupies, and the collaborator
requests issued in order. -/
structure MakeResult where
  record : Escrow
  escrow_data : List Nat
  effects : List Effect
deriving DecidableEq, Repr, Inhabited

/-- The `make` handler from `src/instructions/make.rs`, step for step:
signer check, system program check, token program check, escrow address
derivation and comparison, escrow account creation (owner = this program),
`Escrow::init` (note: `receive_account` is set to `maker_ata_a`), vault
address derivation and comparison, vault account creation (note: the
`CreateAccountParams` name `program_id` as owner), vault holding-account
setup, and the asset-A transfer from the maker into the vault. Failures of
collaborator calls abort the whole instruction with nothing committed, so
only the all-checks-pass outcome is an `ok` value. -/
def make (program_id : Pubkey) (accounts : MakeAccounts) (amount seed : Nat) :
    Except ProgramError MakeResult :=
  if accounts.maker.isSigner = false then
    .error .MissingRequiredSignature
  else if accounts.system_program.key ≠ SYSTEM_PROGRAM_ID then
    .error .IncorrectProgramId
  else if accounts.token_program.key ≠ TOKEN_PROGRAM_ID then
    .error (EscrowError.toProgramError .InvalidTokenProgram)
  else
    let ek := find_escrow_address accounts.maker.key seed program_id
    if ek.1 ≠ accounts.escrow.key then
      .error (EscrowError.toProgramError .InvalidEscrowAccount)
    else
      let lamports := Escrow.LEN * 3564480 / 165
      let record := Escrow.init accounts.maker.key accounts.mint_a.key
        accounts.mint_b.key accounts.maker_ata_a.key amount ek.2
      let vk := find_vault_address accounts.escrow.key program_id
      if vk.1 ≠ accounts.vault.key then
        .error (EscrowError.toProgramError .InvalidEscrowAccount)
      else
        let vault_lamports := 165 * 3564480 / 165
        .ok { record := record
              escrow_data := record.serialize
              effects :=
                [ .createAccount accounts.maker.key accounts.escrow.key
                    lamports Escrow.LEN program_id,
                  .createAccount accounts.maker.key accounts.vault.key
                    vault_lamports 165 program_id,
                  .initHolding accounts.vault.key accounts.mint_a.key program_id,
                  .transfer accounts.maker_ata_a.key accounts.vault.key
                    accounts.maker.key amount ] }

/-- The account list of the Take handler (`TakeAccounts` in take.rs). -/
structure TakeAccounts where
  taker : AccountInfo
  maker : AccountInfo
  escrow : AccountInfo
  vault : AccountInfo
  mint_a : AccountInfo
  mint_b : AccountInfo
  taker_ata_a : AccountInfo
  taker_ata_b : AccountInfo
  maker_ata_b : AccountInfo
  token_program : AccountInfo
deriving DecidableEq, Repr, Inhabited

/-- The committed outcome of a successful Take: the collaborator requests in
order, the zeroed escrow data, and the final escrow and taker lamports. -/
structure TakeResult where
  effects : List Effect
  escrow_data : List Nat
  escrow_lamports : Nat
  taker_lamports : Nat
deriving DecidableEq, Repr, Inhabited

/-- The `take` handler from `src/instructions/take.rs`, step for step:
signer check, token program check, `Escrow::from_account` (discriminator
check), stored-maker check, stored-mint checks, stored receive-account
check, stored-amount check, vault address derivation and comparison, the
asset-B transfer (taker to maker) and asset-A transfer (vault to taker) both
for the stored `escrow.amount`, vault close to the taker, lamport sweep of
the escrow account to the taker, and zeroing of the escrow data. The `seed`
argument is not used. -/
def take (program_id : Pubkey) (accounts : TakeAccounts) (amount seed : Nat) :
    Except ProgramError TakeResult :=
  if accounts.taker.isSigner = false then
    .error .MissingRequiredSignature
  else if accounts.token_program.key ≠ TOKEN_PROGRAM_ID then
    .error (EscrowError.toProgramError .InvalidTokenProgram)
  else
    match Escrow.from_account accounts.escrow.data with
    | .error e => .error e
    | .ok escrow =>
      if escrow.maker ≠ accounts.maker.key then
        .error (EscrowError.toProgramError .InvalidAuthority)
      else if escrow.mint_a ≠ accounts.mint_a.key ∨ escrow.mint_b ≠ accounts.mint_b.key then
        .error (EscrowError.toProgramError .InvalidTokenMint)
      else if escrow.receive_account ≠ accounts.maker_ata_b.key then
        .error .InvalidAccountData
      else if escrow.amount ≠ amount then
        .error (EscrowError.toProgramError .ExpectedAmountMismatch)
      else
        let vk := find_vault_address accounts.escrow.key program_id
        if vk.1 ≠ accounts.vault.key then
          .error (EscrowError.toProgramError .InvalidEscrowAccount)
        else
          .ok { effects :=
                  [ .transfer accounts.taker_ata_b.key accounts.maker_ata_b.key
                      accounts.taker.key escrow.amount,
                    .transfer accounts.vault.key accounts.taker_ata_a.key
                      accounts.escrow.key escrow.amount,
                    .closeAccount accounts.vault.key accounts.taker.key
                      accounts.escrow.key ]
                escrow_data := List.replicate accounts.escrow.data.length 0
                escrow_lamports := 0
                taker_lamports := accounts.taker.lamports + accounts.escrow.lamports }

/-- The account list of the Refund handler (`RefundAccounts` in refund.rs).
There is no caller-supplied maker-claim account: the only maker account is
the signer itself. -/
structure RefundAccounts where
  maker : AccountInfo
  escrow : AccountInfo
  vault : AccountInfo
  maker_ata_a : AccountInfo
  token_program : AccountInfo
deriving DecidableEq, Repr, Inhabited

/-- The committed outcome of a successful Refund. -/
structure RefundResult where
  effects : List Effect
  escrow_data : List Nat
  escrow_lamports : Nat
  maker_lamports : Nat
deriving DecidableEq, Repr, Inhabited

/-- The `refund` handler from `src/instructions/refund.rs`, step for step:
signer check, token program check, `Escrow::from_account` (discriminator
check), stored-maker-equals-signer check, stored-amount check, vault address
derivation and comparison, the asset-A transfer of the stored
`escrow.amount` from the vault back to the maker, vault close to the maker,
lamport sweep of the escrow account to the maker, and zeroing of the escrow
data. The `seed` argument is not used. -/
def refund (program_id : Pubkey) (accounts : RefundAccounts) (amount seed : Nat) :
    Except ProgramError RefundResult :=
  if accounts.maker.isSigner = false then
    .error .MissingRequiredSignature
  else if accounts.token_program.key ≠ TOKEN_PROGRAM_ID then
    .error (EscrowError.toProgramError .InvalidTokenProgram)
  else
    match Escrow.from_account accounts.escrow.data with
    | .error e => .error e
    | .ok escrow =>
      if escrow.maker ≠ accounts.maker.key then
        .error (EscrowError.toProgramError .InvalidAuthority)
      else if escrow.amount ≠ amount then
        .error (EscrowError.toProgramError .ExpectedAmountMismatch)
      else
        let vk := find_vault_address accounts.escrow.key program_id
        if vk.1 ≠ accounts.vault.key then
          .error (EscrowError.toProgramError .InvalidEscrowAccount)
        else
          .ok { effects :=
                  [ .transfer accounts.vault.key accounts.maker_ata_a.key
                      accounts.escrow.key escrow.amount,
                    .closeAccount accounts.vault.key accounts.maker.key
                      accounts.escrow.key ]
                escrow_data := List.replicate accounts.escrow.data.length 0
                escrow_lamports := 0
                maker_lamports := accounts.maker.lamports + accounts.escrow.lamports }

/-- Projection: the stored amount of the record of a successful Make. -/
def makeRecordAmount : Except ProgramError MakeResult → Option Nat
  | .ok r => some r.record.amount
  | .error _ => none

/-- Projection: the discriminator of the record of a successful Make. -/
def makeRecordDisc : Except ProgramError MakeResult → Option (List Nat)
  | .ok r => some r.record.discriminator
  | .error _ => none

/-- Concrete program id used by witnesses. -/
def pidC : Pubkey := List.replicate 32 9

/-- Concrete maker key used by witnesses. -/
def makerK : Pubkey := List.replicate 32 1

/-- Concrete mint-A key used by witnesses. -/
def mintAK : Pubkey := List.replicate 32 2

/-- Concrete mint-B key used by witnesses. -/
def mintBK : Pubkey := List.replicate 32 3

/-- Concrete maker asset-A holding key used by witnesses. -/
def makerAtaAK : Pubkey := List.replicate 32 4

/-- Concrete taker key used by witnesses. -/
def takerK : Pubkey := List.replicate 32 5

/-- Concrete taker asset-A holding key used by witnesses. -/
def takerAtaAK : Pubkey := List.replicate 32 7

/-- Concrete taker asset-B holding key used by witnesses. -/
def takerAtaBK : Pubkey := List.replicate 32 8

/-- Concrete maker asset-B holding key used by witnesses. -/
def makerAtaBK : Pubkey := List.replicate 32 10

/-- The escrow address derived for `makerK` and seed 1 under `pidC`. -/
def escrowKeyC : Pubkey := (find_escrow_address makerK 1 pidC).1

/-- The vault address derived for `escrowKeyC` under `pidC`. -/
def vaultKeyC : Pubkey := (find_vault_address escrowKeyC pidC).1

/-- Concrete Make account set whose addresses pass every Make check. -/
def mkAcctsC : MakeAccounts :=
  { maker := ⟨makerK, true, 1000, []⟩
    mint_a := ⟨mintAK, false, 0, []⟩
    mint_b := ⟨mintBK, false, 0, []⟩
    maker_ata_a := ⟨makerAtaAK, false, 0, []⟩
    escrow := ⟨escrowKeyC, false, 0, List.replicate 145 0⟩
    vault := ⟨vaultKeyC, false, 0, []⟩
    token_program := ⟨TOKEN_PROGRAM_ID, false, 0, []⟩
    system_program := ⟨SYSTEM_PROGRAM_ID, false, 0, []⟩ }

/-- The result of Make on `mkAcctsC` with amount 100, seed 1. -/
def makeResC100 : MakeResult := ((make pidC mkAcctsC 100 1).toOption).getD default

/-- An Open escrow record fixture: maker `makerK`, amount 100. -/
def openRecC : Escrow := Escrow.init makerK mintAK mintBK makerAtaBK 100 255

/-- Concrete Take account set over an Open escrow storing amount 100. -/
def tkAcctsC : TakeAccounts :=
  { taker := ⟨takerK, true, 500, []⟩
    maker := ⟨makerK, false, 0, []⟩
    escrow := ⟨escrowKeyC, false, 70, openRecC.serialize⟩
    vault := ⟨vaultKeyC, false, 0, []⟩
    mint_a := ⟨mintAK, false, 0, []⟩
    mint_b := ⟨mintBK, false, 0, []⟩
    taker_ata_a := ⟨takerAtaAK, false, 0, []⟩
    taker_ata_b := ⟨takerAtaBK, false, 0, []⟩
    maker_ata_b := ⟨makerAtaBK, false, 0, []⟩
    token_program := ⟨TOKEN_PROGRAM_ID, false, 0, []⟩ }

/-- Concrete Take account set whose escrow storage is all zero, the state
left behind by a successful Take or Refund. -/
def tkAcctsZero : TakeAccounts :=
  { tkAcctsC with escrow := ⟨escrowKeyC, false, 70, List.replicate 145 0⟩ }

/-- Concrete Refund account set whose signer (`takerK`) differs from the
stored maker (`makerK`). -/
def rfAcctsBad : RefundAccounts :=
  { maker := ⟨takerK, true, 0, []⟩
    escrow := ⟨escrowKeyC, false, 70, openRecC.serialize⟩
    vault := ⟨vaultKeyC, false, 0, []⟩
    maker_ata_a := ⟨makerAtaAK, false, 0, []⟩
    token_program := ⟨TOKEN_PROGRAM_ID, false, 0, []⟩ }

theorem u64FromLe_u64ToLe (n : Nat) (h : n < 2 ^ 64) : u64FromLe (u64ToLe n) = n := by
  simp only [u64ToLe, u64FromLe]
  norm_num
  omega

theorem u64ToLe_length (n : Nat) : (u64ToLe n).length = 8 := rfl

/-- C7: instruction codec round trip — for each opcode in {Make, Take,
Refund} and every `(amount, seed)` pair in the full u64 range, decoding the
encoding yields exactly the original opcode, amount and seed. -/
theorem unpack_pack_round_trip (a s : Nat) (ha : a < 2 ^ 64) (hs : s < 2 ^ 64) :
    EscrowInstruction.unpack (pack_instruction_data (.Make a s)) = .ok (.Make a s) ∧
    EscrowInstruction.unpack (pack_instruction_data (.Take a s)) = .ok (.Take a s) ∧
    EscrowInstruction.unpack (pack_instruction_data (.Refund a s)) = .ok (.Refund a s) := by
  refine ⟨?_, ?_, ?_⟩ <;>
    simp [pack_instruction_data, EscrowInstruction.unpack, u64ToLe, u64FromLe] <;>
    constructor <;> omega

/-- Witness for C7 at the boundary values amount = 0 and seed = 2^64 - 1. -/
theorem unpack_pack_round_trip_witness :
    EscrowInstruction.unpack (pack_instruction_data (.Make 0 (2 ^ 64 - 1))) =
      .ok (.Make 0 (2 ^ 64 - 1)) :=
  (unpack_pack_round_trip 0 (2 ^ 64 - 1) (by norm_num) (by norm_num)).1

/-- C8: decoding fails with InvalidInstruction exactly on empty input, a
first byte outside {0,1,2}, or total length below 17; on any other input it
succeeds, reading amount from bytes 1-8 and seed from bytes 9-16 as
little-endian u64. -/
theorem unpack_domain (input : List Nat) :
    (EscrowInstruction.unpack input = .error (EscrowError.toProgramError .InvalidInstruction) ↔
      (input = [] ∨
       ¬ (input.head? = some 0 ∨ input.head? = some 1 ∨ input.head? = some 2) ∨
       input.length < 17)) ∧
    (∀ rest, input = 0 :: rest → 17 ≤ input.length →
      EscrowInstruction.unpack input =
        .ok (.Make (u64FromLe (rest.take 8)) (u64FromLe ((rest.drop 8).take 8)))) ∧
    (∀ rest, input = 1 :: rest → 17 ≤ input.length →
      EscrowInstruction.unpack input =
        .ok (.Take (u64FromLe (rest.take 8)) (u64FromLe ((rest.drop 8).take 8)))) ∧
    (∀ rest, input = 2 :: rest → 17 ≤ input.length →
      EscrowInstruction.unpack input =
        .ok (.Refund (u64FromLe (rest.take 8)) (u64FromLe ((rest.drop 8).take 8)))) := by
  refine ⟨?_, ?_, ?_, ?_⟩
  · match input with
    | [] => simp [EscrowInstruction.unpack]
    | op :: rest =>
      by_cases h0 : op = 0
      · subst h0
        by_cases hl : (0 :: rest).length < 17 <;>
          simp [EscrowInstruction.unpack, hl] <;> omega
      · by_cases h1 : op = 1
        · subst h1
          by_cases hl : (1 :: rest).length < 17 <;>
            simp [EscrowInstruction.unpack, hl] <;> omega
        · by_cases h2 : op = 2
          · subst h2
            by_cases hl : (2 :: rest).length < 17 <;>
              simp [EscrowInstruction.unpack, hl] <;> omega
          · simp [EscrowInstruction.unpack, h0, h1, h2]
  · rintro rest rfl hl
    simp only [List.length_cons] at hl
    simp [EscrowInstruction.unpack]
    omega
  · rintro rest rfl hl
    simp only [List.length_cons] at hl
    simp [EscrowInstruction.unpack]
    omega
  · rintro rest rfl hl
    simp only [List.length_cons] at hl
    simp [EscrowInstruction.unpack]
    omega

/-- Witness for C8: a concrete 17-byte Take payload decodes successfully,
and the concrete empty payload case of the failure characterization. -/
theorem unpack_domain_witness :
    EscrowInstruction.unpack (1 :: List.replicate 16 5) =
      .ok (.Take (u64FromLe ((List.replicate 16 5).take 8))
                 (u64FromLe (((List.replicate 16 5) : List Nat).drop 8 |>.take 8))) :=
  (unpack_domain (1 :: List.replicate 16 5)).2.2.1 (List.replicate 16 5) rfl (by decide)

theorem take_append_len (l1 l2 : List Nat) (n : Nat) (h : l1.length = n) :
    (l1 ++ l2).take n = l1 := by
  subst h
  simp

theorem drop_append_len (l1 l2 : List Nat) (n : Nat) (h : l1.length = n) :
    (l1 ++ l2).drop n = l2 := by
  subst h
  simp

theorem validate_account_ok (data : List Nat) (h : data.take 8 = Escrow.DISCRIMINATOR) :
    Escrow.from_account data = .ok (Escrow.deserialize data) := by
  simp [Escrow.from_account, Escrow.validate_account, Escrow.deserialize, h]

theorem validate_account_err (data : List Nat) (h : data.take 8 ≠ Escrow.DISCRIMINATOR) :
    Escrow.from_account data = .error .InvalidAccountData := by
  simp [Escrow.from_account, Escrow.validate_account, Escrow.deserialize, h]

/-- C1: fails on the code. Every successful Make stores the key of the
maker's asset-A source holding (`maker_ata_a`, the account debited by the
deposit transfer) as the record's `receive_account` — not a distinct
asset-B destination; Make takes no asset-B destination account at all. -/
theorem make_receive_account_is_maker_ata_a (program_id : Pubkey)
    (accounts : MakeAccounts) (amount seed : Nat) (r : MakeResult)
    (h : make program_id accounts amount seed = .ok r) :
    r.record.receive_account = accounts.maker_ata_a.key := by
  simp only [make] at h
  iterate 6 all_goals try split at h
  all_goals first
    | exact Except.noConfusion h
    | (injection h with h; rw [← h]; simp [Escrow.init])

/-- Witness for C1: a concrete successful Make whose record's
receive_account equals the maker's asset-A source key. -/
theorem make_receive_account_is_maker_ata_a_witness :
    make pidC mkAcctsC 100 1 = .ok makeResC100 ∧
    makeResC100.record.receive_account = mkAcctsC.maker_ata_a.key :=
  ⟨by rfl, make_receive_account_is_maker_ata_a pidC mkAcctsC 100 1 makeResC100 (by rfl)⟩

/-- C5: fails on the code. In every successful Make, the vault allocation
request (the second `createAccount` effect) names this program —
`program_id` — as the owner of the new vault account, not the asset-custody
collaborator `TOKEN_PROGRAM_ID`; the buffer in make.rs that names
`TOKEN_PROGRAM_ID` as owner is built but never used. -/
theorem make_vault_create_owner_program_id (program_id : Pubkey)
    (accounts : MakeAccounts) (amount seed : Nat) (r : MakeResult)
    (h : make program_id accounts amount seed = .ok r) :
    r.effects[1]? = some (.createAccount accounts.maker.key accounts.vault.key
      3564480 165 program_id) := by
  simp only [make] at h
  iterate 6 all_goals try split at h
  all_goals first
    | exact Except.noConfusion h
    | (injection h with h; rw [← h]; simp [Escrow.init])

/-- Witness for C5: a concrete successful Make whose vault allocation
request names the (non-token-program) program id as owner. -/
theorem make_vault_create_owner_program_id_witness :
    pidC ≠ TOKEN_PROGRAM_ID ∧
    make pidC mkAcctsC 100 1 = .ok makeResC100 ∧
    makeResC100.effects[1]? = some (.createAccount mkAcctsC.maker.key
      mkAcctsC.vault.key 3564480 165 pidC) :=
  ⟨by decide, by rfl,
    make_vault_create_owner_program_id pidC mkAcctsC 100 1 makeResC100 (by rfl)⟩

/-- C6 counterexample: Make with amount = 0 on otherwise valid inputs
succeeds and produces an Open record (discriminator set) whose stored
amount is zero — there is no positivity check in make.rs. -/
theorem make_zero_amount_creates_open_record :
    makeRecordAmount (make pidC mkAcctsC 0 1) = some 0 ∧
    makeRecordDisc (make pidC mkAcctsC 0 1) = some Escrow.DISCRIMINATOR := by
  exact ⟨by decide, by decide⟩

/-- C6 amended: Make performs no validation of `amount`; every successful
Make stores exactly the supplied amount (zero included) in an Open record
(discriminator equal to the constant). -/
theorem make_stores_supplied_amount (program_id : Pubkey)
    (accounts : MakeAccounts) (amount seed : Nat) (r : MakeResult)
    (h : make program_id accounts amount seed = .ok r) :
    r.record.amount = amount ∧ r.record.discriminator = Escrow.DISCRIMINATOR := by
  simp only [make] at h
  iterate 6 all_goals try split at h
  all_goals first
    | exact Except.noConfusion h
    | (injection h with h; rw [← h]; simp [Escrow.init])

/-- Witness for the amended C6 at amount 100. -/
theorem make_stores_supplied_amount_witness :
    make pidC mkAcctsC 100 1 = .ok makeResC100 ∧
    makeResC100.record.amount = 100 ∧
    makeResC100.record.discriminator = Escrow.DISCRIMINATOR :=
  ⟨by rfl, make_stores_supplied_amount pidC mkAcctsC 100 1 makeResC100 (by rfl)⟩

theorem replicate_zero_take_ne_disc (n : Nat) :
    (List.replicate n 0).take 8 ≠ Escrow.DISCRIMINATOR := by
  intro h
  have hlen := congrArg List.length h
  simp [Escrow.DISCRIMINATOR] at hlen
  have hn : 8 ≤ n := by omega
  rw [List.take_replicate, min_eq_left hn] at h
  exact absurd h (by decide)

theorem from_account_ok_elim (data : List Nat) (e : Escrow)
    (h : Escrow.from_account data = .ok e) :
    e = Escrow.deserialize data ∧ data.take 8 = Escrow.DISCRIMINATOR := by
  by_cases hd : data.take 8 = Escrow.DISCRIMINATOR
  · rw [validate_account_ok data hd] at h
    injection h with h
    exact ⟨h.symm, hd⟩
  · rw [validate_account_err data hd] at h
    exact Except.noConfusion h

/-- C2: Take and Refund are mutually exclusive terminal transitions. Every
successful Take or Refund leaves the escrow storage all-zero, whose first 8
bytes therefore differ from the discriminator constant; and on any escrow
account whose first 8 bytes differ from the discriminator constant, a Take
or Refund attempt that passes the stateless signer and token-program checks
fails with `InvalidAccountData`, issuing no transfer (an error outcome
carries no effects), in either order of the two competing instructions. -/
theorem take_refund_mutual_exclusion (program_id : Pubkey) :
    (∀ a amount seed r, take program_id a amount seed = .ok r →
       r.escrow_data = List.replicate a.escrow.data.length 0 ∧
       r.escrow_data.take 8 ≠ Escrow.DISCRIMINATOR) ∧
    (∀ a amount seed r, refund program_id a amount seed = .ok r →
       r.escrow_data = List.replicate a.escrow.data.length 0 ∧
       r.escrow_data.take 8 ≠ Escrow.DISCRIMINATOR) ∧
    (∀ a amount seed, a.escrow.data.take 8 ≠ Escrow.DISCRIMINATOR →
       a.taker.isSigner = true → a.token_program.key = TOKEN_PROGRAM_ID →
       take program_id a amount seed = .error .InvalidAccountData) ∧
    (∀ a amount seed, a.escrow.data.take 8 ≠ Escrow.DISCRIMINATOR →
       a.maker.isSigner = true → a.token_program.key = TOKEN_PROGRAM_ID →
       refund program_id a amount seed = .error .InvalidAccountData) := by
  refine ⟨?_, ?_, ?_, ?_⟩
  · intro a amount seed r h
    simp only [take] at h
    iterate 9 all_goals try split at h
    all_goals first
      | exact Except.noConfusion h
      | (injection h with h; rw [← h]; exact ⟨rfl, replicate_zero_take_ne_disc _⟩)
  · intro a amount seed r h
    simp only [refund] at h
    iterate 7 all_goals try split at h
    all_goals first
      | exact Except.noConfusion h
      | (injection h with h; rw [← h]; exact ⟨rfl, replicate_zero_take_ne_disc _⟩)
  · intro a amount seed hd hs ht
    simp [take, hs, ht, validate_account_err _ hd]
  · intro a amount seed hd hs ht
    simp [refund, hs, ht, validate_account_err _ hd]

/-- Witness for C2: Take on an escrow account whose storage is the all-zero
pattern left by a completed Take or Refund fails with InvalidAccountData. -/
theorem take_refund_mutual_exclusion_witness :
    tkAcctsZero.escrow.data.take 8 ≠ Escrow.DISCRIMINATOR ∧
    take pidC tkAcctsZero 100 1 = .error .InvalidAccountData :=
  ⟨by decide,
   (take_refund_mutual_exclusion pidC).2.2.1 tkAcctsZero 100 1 (by decide) rfl rfl⟩

/-- C3: the stored amount is authoritative in Take. With every earlier
precondition satisfied, a caller-declared amount differing from the stored
one makes Take fail with `ExpectedAmountMismatch` before any transfer is
requested (an error outcome carries no effects and leaves the record
untouched); and every successful Take has stored amount equal to the
declared amount and issues both transfers for exactly the stored amount. -/
theorem take_stored_amount_authoritative (program_id : Pubkey) (a : TakeAccounts)
    (amount seed : Nat) :
    (a.taker.isSigner = true → a.token_program.key = TOKEN_PROGRAM_ID →
     a.escrow.data.take 8 = Escrow.DISCRIMINATOR →
     (Escrow.deserialize a.escrow.data).maker = a.maker.key →
     (Escrow.deserialize a.escrow.data).mint_a = a.mint_a.key →
     (Escrow.deserialize a.escrow.data).mint_b = a.mint_b.key →
     (Escrow.deserialize a.escrow.data).receive_account = a.maker_ata_b.key →
     (Escrow.deserialize a.escrow.data).amount ≠ amount →
     take program_id a amount seed =
       .error (EscrowError.toProgramError .ExpectedAmountMismatch)) ∧
    (∀ r, take program_id a amount seed = .ok r →
     (Escrow.deserialize a.escrow.data).amount = amount ∧
     r.effects = [ .transfer a.taker_ata_b.key a.maker_ata_b.key a.taker.key
                     (Escrow.deserialize a.escrow.data).amount,
                   .transfer a.vault.key a.taker_ata_a.key a.escrow.key
                     (Escrow.deserialize a.escrow.data).amount,
                   .closeAccount a.vault.key a.taker.key a.escrow.key ]) := by
  constructor
  · intro hs ht hd hm h1 h2 hrcv hamt
    simp [take, hs, ht, validate_account_ok _ hd, hm, h1, h2, hrcv, hamt]
  · intro r h
    simp only [take] at h
    iterate 2 all_goals try split at h
    all_goals try exact Except.noConfusion h
    split at h
    · exact Except.noConfusion h
    · rename_i escrow heq
      obtain ⟨hesc, hd⟩ := from_account_ok_elim _ _ heq
      subst hesc
      iterate 6 all_goals try split at h
      all_goals first
        | exact Except.noConfusion h
        | (injection h with h; rw [← h]; simp_all)

/-- Witness for C3: Take declaring 50 against stored 100 fails with
ExpectedAmountMismatch. -/
theorem take_stored_amount_authoritative_witness :
    take pidC tkAcctsC 50 1 = .error (EscrowError.toProgramError .ExpectedAmountMismatch) :=
  (take_stored_amount_authoritative pidC tkAcctsC 50 1).1 rfl rfl
    (by decide) (by decide) (by decide) (by decide) (by decide) (by decide)

/-- C4: Refund authenticates by stored identity only. When the signing
account's key differs from the maker stored in the record, Refund fails with
`InvalidAuthority` and no transfers occur (an error outcome carries no
effects); `RefundAccounts` contains no caller-supplied maker claim — the
stored maker is compared against the signer itself. -/
theorem refund_authenticates_by_stored_maker (program_id : Pubkey)
    (a : RefundAccounts) (amount seed : Nat)
    (hs : a.maker.isSigner = true) (ht : a.token_program.key = TOKEN_PROGRAM_ID)
    (hd : a.escrow.data.take 8 = Escrow.DISCRIMINATOR)
    (hm : (Escrow.deserialize a.escrow.data).maker ≠ a.maker.key) :
    refund program_id a amount seed = .error (EscrowError.toProgramError .InvalidAuthority) := by
  simp [refund, hs, ht, validate_account_ok _ hd, hm]

/-- Witness for C4: Refund signed by the taker against an escrow whose
stored maker is a different key fails with InvalidAuthority. -/
theorem refund_authenticates_by_stored_maker_witness :
    refund pidC rfAcctsBad 100 1 = .error (EscrowError.toProgramError .InvalidAuthority) :=
  refund_authenticates_by_stored_maker pidC rfAcctsBad 100 1 rfl rfl (by decide) (by decide)

/-- C10: the seed argument is ignored by Take and Refund — for any fixed
program id, account set and amount, any two seed values give the same result
and effects; seed is consulted by neither handler. -/
theorem take_refund_ignore_seed (program_id : Pubkey) (ta : TakeAccounts)
    (ra : RefundAccounts) (amount s1 s2 : Nat) :
    take program_id ta amount s1 = take program_id ta amount s2 ∧
    refund program_id ra amount s1 = refund program_id ra amount s2 :=
  ⟨rfl, rfl⟩

theorem drop_append_add (l1 l2 : List Nat) (n m : Nat) (h : l1.length = n) :
    (l1 ++ l2).drop (n + m) = l2.drop m := by
  subst h
  induction l1 with
  | nil => simp
  | cons x xs ih =>
    have hx : xs.length + 1 + m = (xs.length + m) + 1 := by omega
    simp only [List.length_cons, List.cons_append, hx, List.drop_succ_cons]
    exact ih

/-- C9: the persisted escrow record occupies exactly 145 bytes —
`Escrow::LEN` equals 145 — and its byte image places the discriminator at
bytes 0-7, maker at 8-39, mint_a at 40-71, mint_b at 72-103,
receive_account at 104-135, amount as u64 little-endian at 136-143 and bump
at byte 144; Make writes exactly this image into the escrow storage. -/
theorem escrow_record_layout (maker mint_a mint_b recv : Pubkey) (amount bump : Nat)
    (hm : maker.length = 32) (hma : mint_a.length = 32)
    (hmb : mint_b.length = 32) (hr : recv.length = 32) :
    Escrow.LEN = 145 ∧
    (Escrow.init maker mint_a mint_b recv amount bump).serialize.length = 145 ∧
    (Escrow.init maker mint_a mint_b recv amount bump).serialize.take 8 =
      Escrow.DISCRIMINATOR ∧
    ((Escrow.init maker mint_a mint_b recv amount bump).serialize.drop 8).take 32 = maker ∧
    ((Escrow.init maker mint_a mint_b recv amount bump).serialize.drop 40).take 32 = mint_a ∧
    ((Escrow.init maker mint_a mint_b recv amount bump).serialize.drop 72).take 32 = mint_b ∧
    ((Escrow.init maker mint_a mint_b recv amount bump).serialize.drop 104).take 32 = recv ∧
    ((Escrow.init maker mint_a mint_b recv amount bump).serialize.drop 136).take 8 =
      u64ToLe amount ∧
    (Escrow.init maker mint_a mint_b recv amount bump).serialize.drop 144 = [bump] ∧
    (∀ program_id accounts seed r, make program_id accounts amount seed = .ok r →
       r.escrow_data = r.record.serialize) := by
  have hS : (Escrow.init maker mint_a mint_b recv amount bump).serialize =
      Escrow.DISCRIMINATOR ++ (maker ++ (mint_a ++ (mint_b ++ (recv ++
        (u64ToLe amount ++ [bump]))))) := rfl
  refine ⟨rfl, ?_, ?_, ?_, ?_, ?_, ?_, ?_, ?_, ?_⟩
  · rw [hS]
    simp [List.length_append, hm, hma, hmb, hr, Escrow.DISCRIMINATOR, u64ToLe]
  · rw [hS]
    exact take_append_len _ _ 8 rfl
  · rw [hS, drop_append_len Escrow.DISCRIMINATOR _ 8 rfl]
    exact take_append_len _ _ 32 hm
  · rw [hS, show (40 : Nat) = 8 + 32 from rfl, drop_append_add Escrow.DISCRIMINATOR _ 8 32 rfl,
      drop_append_len _ _ 32 hm]
    exact take_append_len _ _ 32 hma
  · rw [hS, show (72 : Nat) = 8 + 64 from rfl, drop_append_add Escrow.DISCRIMINATOR _ 8 64 rfl,
      show (64 : Nat) = 32 + 32 from rfl, drop_append_add _ _ 32 32 hm,
      drop_append_len _ _ 32 hma]
    exact take_append_len _ _ 32 hmb
  · rw [hS, show (104 : Nat) = 8 + 96 from rfl, drop_append_add Escrow.DISCRIMINATOR _ 8 96 rfl,
      show (96 : Nat) = 32 + 64 from rfl, drop_append_add _ _ 32 64 hm,
      show (64 : Nat) = 32 + 32 from rfl, drop_append_add _ _ 32 32 hma,
      drop_append_len _ _ 32 hmb]
    exact take_append_len _ _ 32 hr
  · rw [hS, show (136 : Nat) = 8 + 128 from rfl, drop_append_add Escrow.DISCRIMINATOR _ 8 128 rfl,
      show (128 : Nat) = 32 + 96 from rfl, drop_append_add _ _ 32 96 hm,
      show (96 : Nat) = 32 + 64 from rfl, drop_append_add _ _ 32 64 hma,
      show (64 : Nat) = 32 + 32 from rfl, drop_append_add _ _ 32 32 hmb,
      drop_append_len _ _ 32 hr]
    exact take_append_len _ _ 8 (u64ToLe_length amount)
  · rw [hS, show (144 : Nat) = 8 + 136 from rfl, drop_append_add Escrow.DISCRIMINATOR _ 8 136 rfl,
      show (136 : Nat) = 32 + 104 from rfl, drop_append_add _ _ 32 104 hm,
      show (104 : Nat) = 32 + 72 from rfl, drop_append_add _ _ 32 72 hma,
      show (72 : Nat) = 32 + 40 from rfl, drop_append_add _ _ 32 40 hmb,
      show (40 : Nat) = 32 + 8 from rfl, drop_append_add _ _ 32 8 hr]
    exact drop_append_len _ _ 8 (u64ToLe_length amount)
  · intro program_id accounts seed r h
    simp only [make] at h
    iterate 6 all_goals try split at h
    all_goals first
      | exact Except.noConfusion h
      | (injection h with h; rw [← h]; try simp)

/-- Witness for C9 at concrete 32-byte field values. -/
theorem escrow_record_layout_witness :
    (List.replicate 32 1 : List Nat).length = 32 ∧
    (Escrow.init (List.replicate 32 1) (List.replicate 32 2) (List.replicate 32 3)
      (List.replicate 32 4) 7 255).serialize.take 8 = Escrow.DISCRIMINATOR :=
  ⟨by decide,
   (escrow_record_layout (List.replicate 32 1) (List.replicate 32 2)
     (List.replicate 32 3) (List.replicate 32 4) 7 255
     (by decide) (by decide) (by decide) (by decide)).2.2.1⟩
